import Mathlib

/-!
# Verification of the `hc` HAP IP transport against its specification

Shallow embedding of the Go sources:

* `src/hap/ip_transport.go` — `ipTransport`, `isPaired`,
  `updateMDNSReachability`, `addAccessory` / `notifyListener`,
  `transportUUIDInStorage`, `Handle`, and the configuration merging done by
  `NewIPTransport`.
* `src/netio/handler/pair-setup.go` — `PairSetupHandler.ServeHTTP`.

Go conventions used throughout the embedding: `[]byte` values that the code
only ever converts to/from `string` and measures with `len` are modelled as
`String`; a Go `error` result is modelled by `Except Unit`/`Bool` flags; a
call to `log.Fatal` (which terminates the whole process) is modelled by the
`FatalOr.fatal` outcome; `net.Conn` values are identified by a `Nat`
connection id, with `Option Conn` for possibly-`nil` connections.
-/

set_option autoImplicit false

namespace Hc

/-- Outcome of a code path that may call `log.Fatal`: `fatal` means the whole
server process terminates; `ok` carries the normal result. -/
inductive FatalOr (α : Type) where
  | fatal : FatalOr α
  | ok : α → FatalOr α
deriving DecidableEq, Repr

/-! ## Storage (`util.Storage` boundary) and `transportUUIDInStorage` -/

/-- The external key-value storage collaborator (`util.Storage`), narrowed to
the behavior visible to `transportUUIDInStorage`: `data` maps a key to the
stored bytes (`""` when absent), `getErrs k` says whether `Get k` reports an
error, `setErrs k` says whether `Set k v` reports an error. -/
structure Storage where
  data : String → String
  getErrs : String → Bool
  setErrs : String → Bool

/-- `storage.Get(key)` returns the stored bytes together with the error flag. -/
def Storage.get (s : Storage) (k : String) : String × Bool :=
  (s.data k, s.getErrs k)

/-- The storage state after a successful `storage.Set(key, value)`. -/
def Storage.setOk (s : Storage) (k v : String) : Storage :=
  { s with data := fun k2 => if k2 = k then v else s.data k2 }

/-- Pairs of characters of a hex string, used by the MAC-48 formatting. -/
def chunkPairs : List Char → List (List Char)
  | a :: b :: rest => [a, b] :: chunkPairs rest
  | [a] => [[a]]
  | [] => []

/-- Joins strings with `":"` separators (colon-separated formatting). -/
def joinColon : List String → String
  | [] => ""
  | [x] => x
  | x :: xs => x ++ ":" ++ joinColon xs

/-- Modelled from the spec: `netio.MAC48Address` (its source is not under
`src/`) formats a stable 48-bit value drawn from the random hex string as a
colon-separated MAC-address-like hex string (six two-hex-digit groups joined
by `":"`). The input is padded/truncated to 12 hex digits. -/
def mac48Address (str : String) : String :=
  let cs := (str.toList ++ ['0','0','0','0','0','0','0','0','0','0','0','0']).take 12
  joinColon ((chunkPairs cs).map String.mk)

/-- `transportUUIDInStorage` from `src/hap/ip_transport.go`: returns the uuid
stored under key `"uuid"`, or (when the stored value is empty or `Get`
errors) generates a new one from a random hex string (`rand` stands for the
value returned by `util.RandomHexString()`), stores it, and `log.Fatal`s if
the `Set` fails.  The `Bool` in the result records whether `Set` was called. -/
def transportUUIDInStorage (storage : Storage) (rand : String) :
    FatalOr (String × Storage × Bool) :=
  let gu := storage.get "uuid"
  if gu.1.length = 0 ∨ gu.2 = true then
    let uuid := mac48Address rand
    if storage.setErrs "uuid" = true then FatalOr.fatal
    else FatalOr.ok (uuid, storage.setOk "uuid" uuid, true)
  else
    FatalOr.ok (gu.1, storage, false)

/-! ## Connections, events and `notifyListener` -/

/-- A `net.Conn` identified by a connection id. -/
abbrev Conn := Nat

/-- The fields of `characteristic.Characteristic` the transport reads when
broadcasting: its identifier and its `Events` flag. -/
structure Characteristic where
  id : Nat
  events : Bool
deriving DecidableEq, Repr

/-- Modelled from the spec: `netio.FixProtocolSpecifier` (its source is not
under `src/`) substitutes the status-line protocol token of a serialized
response with the event-specific token before the bytes reach the wire. -/
def fixProtocolSpecifier (s : String) : String :=
  if "HTTP/1.1".toList.isPrefixOf s.toList then
    String.mk ("EVENT/1.0".toList ++ s.toList.drop 8)
  else s

/-- The loop body of `notifyListener`: for each active connection other than
`except`, serialize the characteristic response (`mkResp` stands for the
result of `netio.New(a, c)` followed by `resp.Write`; an `error` makes the
code `log.Fatal`), replace the protocol specifier, and write the bytes.
Each performed write is recorded as `(conn, bytes, writeOk conn)`; the Go
code discards `conn.Write`'s results, so the `writeOk` flag of one write
never influences the rest of the loop. -/
def notifyLoop (except : Option Conn) (mkResp : Except Unit String)
    (writeOk : Conn → Bool) : List Conn → FatalOr (List (Conn × String × Bool))
  | [] => FatalOr.ok []
  | conn :: rest =>
    if some conn = except then
      notifyLoop except mkResp writeOk rest
    else
      match mkResp with
      | Except.error _ => FatalOr.fatal
      | Except.ok resp =>
        let bytes := fixProtocolSpecifier resp
        match notifyLoop except mkResp writeOk rest with
        | FatalOr.fatal => FatalOr.fatal
        | FatalOr.ok ws => FatalOr.ok ((conn, bytes, writeOk conn) :: ws)

/-- `notifyListener` from `src/hap/ip_transport.go`, with the active
connection list (`t.context.ActiveConnections()`) passed explicitly. -/
def notifyListener (conns : List Conn) (except : Option Conn)
    (mkResp : Except Unit String) (writeOk : Conn → Bool) :
    FatalOr (List (Conn × String × Bool)) :=
  notifyLoop except mkResp writeOk conns

/-- The `onConnChange` closure installed by `addAccessory`: when a
characteristic value changes from a connection's write and events are enabled
for the characteristic, notify all listeners except that connection. -/
def onConnChange (conns : List Conn) (conn : Conn) (c : Characteristic)
    (mkResp : Except Unit String) (writeOk : Conn → Bool) :
    FatalOr (List (Conn × String × Bool)) :=
  if c.events = true then notifyListener conns (some conn) mkResp writeOk
  else FatalOr.ok []

/-- The `onChange` closure installed by `addAccessory`: a value change not
attributed to a connection notifies all listeners (`except` is `nil`). -/
def onChange (conns : List Conn) (c : Characteristic)
    (mkResp : Except Unit String) (writeOk : Conn → Bool) :
    FatalOr (List (Conn × String × Bool)) :=
  if c.events = true then notifyListener conns none mkResp writeOk
  else FatalOr.ok []

/-- The connections an outcome actually delivered bytes to. -/
def connsWritten : FatalOr (List (Conn × String × Bool)) → List Conn
  | FatalOr.fatal => []
  | FatalOr.ok ws => ws.map (fun w => w.1)

/-- Claim-side definition following the spec's words (§4.7): the event is
pushed to exactly the connections whose Session has the characteristic's
identifier in its subscribed set, excluding the originating connection. -/
def specNotifyTargets (conns : List Conn) (subscribed : Conn → List Nat)
    (cid : Nat) (except : Option Conn) : List Conn :=
  conns.filter (fun c => decide (some c ≠ except) && (subscribed c).contains cid)

/-! ## Database entities, `isPaired`, mDNS reachability and `Handle` -/

/-- Modelled from the spec: an entity record of the `db.Database` package
(its source is not under `src/`). The database stores one entity for the
accessory device itself plus one entity per `PairedController` record;
pair-setup completion adds a controller entity and unpairing removes it. -/
structure Entity where
  name : String
deriving DecidableEq, Repr

/-- The `db.Database` collaborator narrowed to what `isPaired` reads:
`Entities()` returns the stored entities or an error. -/
structure Database where
  entities : Except Unit (List Entity)

/-- Modelled from the spec: a database holding only the transport's own
device entity — the state before any successful pair-setup. -/
def freshDatabase (deviceName : String) : Database :=
  ⟨Except.ok [⟨deviceName⟩]⟩

/-- Modelled from the spec: storing a record appends its entity (pair-setup
completion persists the new `PairedController`). -/
def Database.addEntity (db : Database) (e : Entity) : Database :=
  match db.entities with
  | Except.ok es => ⟨Except.ok (es ++ [e])⟩
  | Except.error u => ⟨Except.error u⟩

/-- Modelled from the spec: unpairing deletes the controller's entity. -/
def Database.removeEntity (db : Database) (e : Entity) : Database :=
  match db.entities with
  | Except.ok es => ⟨Except.ok (es.filter (fun x => x ≠ e))⟩
  | Except.error u => ⟨Except.error u⟩

/-- The mDNS advertisement collaborator narrowed to what the transport sets:
the reachable flag (`MDNSService.SetReachable`). -/
structure MDNSService where
  reachable : Bool
deriving DecidableEq, Repr

/-- The fields of `ipTransport` the pairing-event path reads and writes:
its database and its (possibly not yet published) mDNS service. -/
structure IpTransport where
  database : Database
  mdns : Option MDNSService

/-- `isPaired` from `src/hap/ip_transport.go`: true when the database stores
more than one entity (the transport device itself is one entity), false on
an `Entities()` error. -/
def isPaired (t : IpTransport) : Bool :=
  match t.database.entities with
  | Except.ok es => decide (es.length > 1)
  | Except.error _ => false

/-- `updateMDNSReachability` from `src/hap/ip_transport.go`: when an mDNS
service exists, set its reachable flag to `isPaired() == false` and update
the advertisement. -/
def updateMDNSReachability (t : IpTransport) : IpTransport :=
  match t.mdns with
  | some _ => { t with mdns := some ⟨isPaired t = false⟩ }
  | none => t

/-- The pairing events the transport's `Handle` dispatches on; every other
event value falls to the `default` branch. -/
inductive Event where
  | devicePaired
  | deviceUnpaired
  | other
deriving DecidableEq, Repr

/-- `Handle` from `src/hap/ip_transport.go`: pairing and unpairing events
refresh the mDNS reachability; other events are ignored. -/
def Handle (t : IpTransport) (ev : Event) : IpTransport :=
  match ev with
  | Event.devicePaired => updateMDNSReachability t
  | Event.deviceUnpaired => updateMDNSReachability t
  | Event.other => t

/-! ## Configuration merging in `NewIPTransport` -/

/-- The `hap.Config` structure of `src/hap/ip_transport.go` (string fields
only; an empty string is Go's zero value for an unset field). -/
structure Config where
  storagePath : String
  port : String
  advertisedPort : String
  ip : String
  advertisedIP : String
  hostname : String
  pin : String
deriving DecidableEq, Repr

/-- The configuration-merging prefix of `NewIPTransport` from
`src/hap/ip_transport.go`: start from `default_config` (storage path = the
accessory `name`, pin `"00102003"`, IP = the first local address `localIP`)
and override each field from `config` when it is non-empty; `Port` and
`AdvertisedPort` gain a `":"` prefix, and the advertised port/IP fall back
to the listening port/IP. -/
def mergedConfig (config : Config) (name : String) (localIP : String) : Config :=
  let dc : Config :=
    { storagePath := name, pin := "00102003", port := "", ip := localIP,
      advertisedPort := "", advertisedIP := "", hostname := "" }
  let dc := if config.storagePath.length > 0 then
    { dc with storagePath := config.storagePath } else dc
  let dc := if config.pin.length > 0 then { dc with pin := config.pin } else dc
  let dc := if config.port.length > 0 then
    { dc with port := ":" ++ config.port } else dc
  let dc := if config.ip.length > 0 then { dc with ip := config.ip } else dc
  let dc := if config.advertisedPort.length > 0 then
    { dc with advertisedPort := ":" ++ config.advertisedPort }
  else
    { dc with advertisedPort := dc.port }
  let dc := if config.advertisedIP.length > 0 then
    { dc with advertisedIP := config.advertisedIP }
  else
    { dc with advertisedIP := dc.ip }
  let dc := if config.hostname.length > 0 then
    { dc with hostname := config.hostname } else dc
  dc

/-! ## The pair-setup endpoint handler (`src/netio/handler/pair-setup.go`) -/

/-- A pair-setup controller (`pair.SetupServerController`); its internals
live in the `pair` package (not under `src/`), so only its identity matters
to the handler: `id` distinguishes distinct controller instances. -/
structure SetupController where
  id : Nat
deriving DecidableEq, Repr

/-- The slice of `netio.Session` the pair-setup handler touches: the stored
pair-setup controller (`PairSetupHandler()` / `SetPairSetupHandler`). -/
structure Session where
  pairSetupHandler : Option SetupController
deriving DecidableEq, Repr

/-- Modelled from the spec: the pairing-specific TLV8 media type the handler
sets as `Content-Type` (`netio.HTTPContentTypePairingTLV8`, whose source is
not under `src/`). -/
def httpContentTypePairingTLV8 : String := "application/pairing+tlv8"

/-- The HTTP response the handler produces: status code (Go's
`ResponseWriter` defaults to 200 when `WriteHeader` is never called),
`Content-Type` header, and body bytes. -/
structure HttpResponse where
  status : Nat
  contentType : String
  body : String
deriving DecidableEq, Repr

/-- The observable outcome of one `ServeHTTP` call: the session afterwards,
the HTTP response, and the controller `pair.HandleReaderForHandler` was
invoked on. -/
structure ServeResult where
  session : Session
  response : HttpResponse
  usedController : SetupController
deriving DecidableEq, Repr

/-- `PairSetupHandler.ServeHTTP` from `src/netio/handler/pair-setup.go`:
fetch the connection's session; when it holds no pair-setup controller,
create a fresh one (`freshId` identifies the instance
`pair.NewSetupServerController` would return) and store it in the session;
then hand the request body to the controller (`handle` stands for
`pair.HandleReaderForHandler`).  A handler error answers 500 with an empty
body; success answers the handler's bytes with the implicit 200 status. -/
def serveHTTP (handle : SetupController → String → Except Unit String)
    (session : Session) (freshId : Nat) (body : String) : ServeResult :=
  let cs : SetupController × Session :=
    match session.pairSetupHandler with
    | some c => (c, session)
    | none =>
      let c : SetupController := ⟨freshId⟩
      (c, { session with pairSetupHandler := some c })
  let controller := cs.1
  let session := cs.2
  match handle controller body with
  | Except.error _ =>
    ⟨session,
      { status := 500, contentType := httpContentTypePairingTLV8, body := "" },
      controller⟩
  | Except.ok res =>
    ⟨session,
      { status := 200, contentType := httpContentTypePairingTLV8, body := res },
      controller⟩

/-- The controller a `ServeHTTP` call dispatches to: the session's stored
controller when present, otherwise the freshly created one. -/
def controllerFor (session : Session) (freshId : Nat) : SetupController :=
  match session.pairSetupHandler with
  | some c => c
  | none => ⟨freshId⟩

/-! ## Helper lemmas -/

theorem string_length_append (a b : String) :
    (a ++ b).length = a.length + b.length := by
  cases a with | mk la => cases b with | mk lb =>
  simp [String.length, String.instAppend, String.append]

theorem joinColon_cons_length (x : String) (xs : List String) :
    x.length ≤ (joinColon (x :: xs)).length := by
  cases xs with
  | nil => simp [joinColon]
  | cons y ys =>
    show x.length ≤ (x ++ ":" ++ joinColon (y :: ys)).length
    rw [string_length_append, string_length_append]
    omega

theorem take12_shape (l : List Char) :
    ∃ a b rest,
      (l ++ ['0','0','0','0','0','0','0','0','0','0','0','0']).take 12
        = a :: b :: rest := by
  match l with
  | [] => exact ⟨'0', '0', _, rfl⟩
  | [a] => exact ⟨a, '0', _, rfl⟩
  | a :: b :: t => exact ⟨a, b, _, rfl⟩

theorem mac48Address_length_pos (s : String) : 0 < (mac48Address s).length := by
  obtain ⟨a, b, rest, h⟩ := take12_shape s.toList
  have h2 : mac48Address s
      = joinColon (String.mk [a, b] :: (chunkPairs rest).map String.mk) := by
    simp only [mac48Address, h, chunkPairs, List.map]
  have h3 : (String.mk [a, b]).length = 2 := rfl
  have h4 := joinColon_cons_length (String.mk [a, b]) ((chunkPairs rest).map String.mk)
  rw [h2]
  omega

/-- `notifyLoop` with a successful serialization delivers to exactly the
non-excluded connections, in order, each receiving the protocol-substituted
bytes; the per-connection write results do not influence the loop. -/
theorem notifyLoop_ok (except : Option Conn) (resp : String)
    (writeOk : Conn → Bool) (conns : List Conn) :
    notifyLoop except (Except.ok resp) writeOk conns
      = FatalOr.ok ((conns.filter (fun c => decide (some c ≠ except))).map
          (fun c => (c, fixProtocolSpecifier resp, writeOk c))) := by
  induction conns with
  | nil => rfl
  | cons a rest ih =>
    by_cases h : some a = except
    · simp [notifyLoop, h, ih]
    · simp [notifyLoop, h, ih]

/-- `notifyLoop` with a failed serialization calls `log.Fatal` as soon as it
reaches any non-excluded connection. -/
theorem notifyLoop_error_fatal (except : Option Conn) (writeOk : Conn → Bool)
    (conns : List Conn) (c : Conn) (hc : c ∈ conns) (hne : some c ≠ except) :
    notifyLoop except (Except.error ()) writeOk conns = FatalOr.fatal := by
  induction conns with
  | nil => cases hc
  | cons a rest ih =>
    by_cases h : some a = except
    · have hca : c ≠ a := fun hcae => hne (hcae ▸ h)
      have : c ∈ rest := by
        cases List.mem_cons.mp hc with
        | inl h0 => exact absurd h0 hca
        | inr h0 => exact h0
      simp [notifyLoop, h, ih this]
    · simp [notifyLoop, h]

theorem string_length_eq_zero_iff (s : String) : s.length = 0 ↔ s = "" := by
  rw [String.ext_iff]
  show s.data.length = 0 ↔ s.data = []
  exact List.length_eq_zero

/-! ## Claim theorems -/

set_option maxRecDepth 4096 in
/-- Claim C9: for every transport configuration whose `Pin` field is empty,
`NewIPTransport` uses the canonical default PIN `00102003` for pair-setup;
when a non-empty `Pin` is supplied, that value is used instead. -/
theorem C9_default_pin (config : Config) (name localIP : String) :
    (mergedConfig config name localIP).pin
      = if config.pin = "" then "00102003" else config.pin := by
  dsimp only [mergedConfig]
  simp only [apply_ite Config.pin]
  simp only [ite_self]
  by_cases h : config.pin = ""
  · have hlen : ¬ config.pin.length > 0 := by
      rw [h]
      decide
    simp only [if_pos h, if_neg hlen]
  · have hlen : config.pin.length > 0 := by
      rcases Nat.eq_zero_or_pos config.pin.length with h0 | h0
      · exact absurd ((string_length_eq_zero_iff config.pin).mp h0) h
      · exact h0
    simp only [if_neg h, if_pos hlen]

/-- Claim C2: `isPaired()` is false before any successful pair-setup has stored a
paired-controller record (only the transport's own device entity is in the
database), becomes true immediately after the first successful pair-setup
stores one, and is false again after the sole paired record is removed. -/
theorem C2_isPaired_lifecycle (deviceName : String) (c : Entity)
    (m : Option MDNSService) (h : c ≠ ⟨deviceName⟩) :
    isPaired ⟨freshDatabase deviceName, m⟩ = false ∧
    isPaired ⟨(freshDatabase deviceName).addEntity c, m⟩ = true ∧
    isPaired ⟨((freshDatabase deviceName).addEntity c).removeEntity c, m⟩
      = false := by
  have hd : (⟨deviceName⟩ : Entity) ≠ c := fun he => h he.symm
  refine ⟨rfl, rfl, ?_⟩
  simp [isPaired, freshDatabase, Database.addEntity, Database.removeEntity, hd]

/-- Claim C2 witness: the lifecycle at a concrete device and controller record. -/
theorem C2_isPaired_lifecycle_witness :
    isPaired ⟨freshDatabase "Lamp", none⟩ = false ∧
    isPaired ⟨(freshDatabase "Lamp").addEntity ⟨"controller-pk"⟩, none⟩ = true ∧
    isPaired ⟨((freshDatabase "Lamp").addEntity ⟨"controller-pk"⟩).removeEntity
        ⟨"controller-pk"⟩, none⟩ = false :=
  C2_isPaired_lifecycle "Lamp" ⟨"controller-pk"⟩ none (by decide)

/-- Claim C8: on a connection whose Session holds no pair-setup controller, the
first pair-setup request creates one and stores it in the Session; a
subsequent request on the same connection is dispatched to the stored
controller and does not create a second one. -/
theorem C8_one_controller_per_connection
    (handle : SetupController → String → Except Unit String) (s : Session)
    (freshId freshId2 : Nat) (body body2 : String)
    (hnone : s.pairSetupHandler = none) :
    (serveHTTP handle s freshId body).usedController = ⟨freshId⟩ ∧
    (serveHTTP handle s freshId body).session.pairSetupHandler
      = some ⟨freshId⟩ ∧
    (serveHTTP handle (serveHTTP handle s freshId body).session freshId2
        body2).usedController = ⟨freshId⟩ ∧
    (serveHTTP handle (serveHTTP handle s freshId body).session freshId2
        body2).session.pairSetupHandler = some ⟨freshId⟩ := by
  cases h1 : handle ⟨freshId⟩ body <;>
    cases h2 : handle ⟨freshId⟩ body2 <;>
      simp [serveHTTP, hnone, h1, h2]

/-- Claim C8 witness: two requests on a fresh connection use the one controller. -/
theorem C8_one_controller_per_connection_witness :
    (serveHTTP (fun _ _ => Except.ok "done") ⟨none⟩ 4 "m1").usedController
      = ⟨4⟩ ∧
    (serveHTTP (fun _ _ => Except.ok "done") ⟨none⟩ 4
        "m1").session.pairSetupHandler = some ⟨4⟩ ∧
    (serveHTTP (fun _ _ => Except.ok "done")
        (serveHTTP (fun _ _ => Except.ok "done") ⟨none⟩ 4 "m1").session 9
        "m3").usedController = ⟨4⟩ ∧
    (serveHTTP (fun _ _ => Except.ok "done")
        (serveHTTP (fun _ _ => Except.ok "done") ⟨none⟩ 4 "m1").session 9
        "m3").session.pairSetupHandler = some ⟨4⟩ :=
  C8_one_controller_per_connection (fun _ _ => Except.ok "done") ⟨none⟩ 4 9
    "m1" "m3" rfl

/-- Claim C10: whenever the pair-setup controller returns an error for a request,
the endpoint responds with HTTP status 500 and an empty body, and the
controller stored in the Session is left in place rather than reset. -/
theorem C10_error_keeps_controller
    (handle : SetupController → String → Except Unit String) (s : Session)
    (freshId : Nat) (body : String)
    (herr : handle (controllerFor s freshId) body = Except.error ()) :
    (serveHTTP handle s freshId body).response
      = ⟨500, httpContentTypePairingTLV8, ""⟩ ∧
    (serveHTTP handle s freshId body).session.pairSetupHandler
      = some (controllerFor s freshId) := by
  cases hs : s.pairSetupHandler with
  | none =>
    rw [controllerFor] at herr
    rw [hs] at herr
    simp [serveHTTP, controllerFor, hs, herr]
  | some c =>
    rw [controllerFor] at herr
    rw [hs] at herr
    simp [serveHTTP, controllerFor, hs, herr]

/-- Claim C10 witness: a failing controller on a session that already stores a
controller yields a 500 empty-body response and keeps the controller. -/
theorem C10_error_keeps_controller_witness :
    (serveHTTP (fun _ _ => Except.error ()) ⟨some ⟨5⟩⟩ 9 "m1").response
      = ⟨500, httpContentTypePairingTLV8, ""⟩ ∧
    (serveHTTP (fun _ _ => Except.error ()) ⟨some ⟨5⟩⟩ 9
        "m1").session.pairSetupHandler = some (controllerFor ⟨some ⟨5⟩⟩ 9) :=
  C10_error_keeps_controller (fun _ _ => Except.error ()) ⟨some ⟨5⟩⟩ 9 "m1" rfl

/-- Claim C5: after a pairing or unpairing event is handled, the mDNS reachable
flag equals the negation of `isPaired()`; with the device entity plus the
paired-controller records in the database, it is true exactly when the
paired-controller set is empty. -/
theorem C5_reachability_tracks_isPaired (m0 : MDNSService) (ev : Event)
    (deviceName : String) (controllers : List Entity)
    (hev : ev = Event.devicePaired ∨ ev = Event.deviceUnpaired) :
    (Handle ⟨⟨Except.ok (⟨deviceName⟩ :: controllers)⟩, some m0⟩ ev).mdns
      = some ⟨!isPaired ⟨⟨Except.ok (⟨deviceName⟩ :: controllers)⟩, some m0⟩⟩ ∧
    ((!isPaired ⟨⟨Except.ok (⟨deviceName⟩ :: controllers)⟩, some m0⟩) = true
      ↔ controllers = []) := by
  have hup : ∀ t : IpTransport, t.mdns = some m0 →
      (updateMDNSReachability t).mdns = some ⟨!isPaired t⟩ := by
    intro t ht
    rw [updateMDNSReachability, ht]
    cases hp : isPaired t <;> simp [hp]
  constructor
  · rcases hev with rfl | rfl <;> exact hup _ rfl
  · simp [isPaired, List.length_eq_zero]

/-- Claim C5 witness: handling a pairing event with one paired controller stored
turns the reachable flag off. -/
theorem C5_reachability_tracks_isPaired_witness :
    (Handle ⟨⟨Except.ok (⟨"Lamp"⟩ :: [⟨"ctrl"⟩])⟩, some ⟨true⟩⟩
        Event.devicePaired).mdns
      = some ⟨!isPaired ⟨⟨Except.ok (⟨"Lamp"⟩ :: [⟨"ctrl"⟩])⟩, some ⟨true⟩⟩⟩ ∧
    ((!isPaired ⟨⟨Except.ok (⟨"Lamp"⟩ :: [⟨"ctrl"⟩])⟩, some ⟨true⟩⟩) = true
      ↔ ([⟨"ctrl"⟩] : List Entity) = []) :=
  C5_reachability_tracks_isPaired ⟨true⟩ Event.devicePaired "Lamp" [⟨"ctrl"⟩]
    (Or.inl rfl)

/-- Claim C1 as stated is false on the code: the transport tracks no per-connection
subscriptions, so a connection that has subscribed to nothing still receives
the event — delivery differs from the spec's subscribed-set filtering. -/
theorem C1_counterexample :
    connsWritten (onConnChange [0, 1] 0 ⟨7, true⟩
        (Except.ok "HTTP/1.1 200 OK") (fun _ => true))
      ≠ specNotifyTargets [0, 1] (fun _ => []) 7 (some 0) := by
  decide

/-- Claim C1 (amended): on any characteristic value change with events
enabled for the characteristic, the event is pushed to every active
connection — excluding the connection that caused the change when the change
originated from a write, and with no exclusion for changes not attributed to
a connection — regardless of any subscription state. -/
theorem C1_broadcast_ignores_subscriptions (conns : List Conn) (conn : Conn)
    (c : Characteristic) (resp : String) (writeOk : Conn → Bool)
    (hev : c.events = true) :
    connsWritten (onConnChange conns conn c (Except.ok resp) writeOk)
      = conns.filter (fun x => decide (x ≠ conn)) ∧
    connsWritten (onChange conns c (Except.ok resp) writeOk) = conns := by
  have hproj : (fun w : Conn × String × Bool => w.1) ∘
      (fun c => (c, fixProtocolSpecifier resp, writeOk c)) = id := rfl
  constructor
  · have hfun : (fun x : Conn => decide (some x ≠ some conn))
        = fun x : Conn => decide (x ≠ conn) := by
      funext x
      simp
    rw [onConnChange, if_pos hev, notifyListener, notifyLoop_ok, connsWritten,
      List.map_map, hfun, hproj, List.map_id]
  · have hfun : (fun x : Conn => decide (some x ≠ (none : Option Conn)))
        = fun _ : Conn => true := by
      funext x
      simp
    rw [onChange, if_pos hev, notifyListener, notifyLoop_ok, connsWritten,
      List.map_map, hfun, List.filter_true, hproj, List.map_id]

/-- Claim C1 amended-claim witness: with two active connections, a change
written from connection 0 is delivered exactly to connection 1, and a change
not attributed to a connection is delivered to both connections. -/
theorem C1_broadcast_ignores_subscriptions_witness :
    connsWritten (onConnChange [0, 1] 0 ⟨7, true⟩
        (Except.ok "HTTP/1.1 200 OK") (fun _ => true))
      = List.filter (fun x => decide (x ≠ 0)) [0, 1] ∧
    connsWritten (onChange [0, 1] ⟨7, true⟩
        (Except.ok "HTTP/1.1 200 OK") (fun _ => true)) = [0, 1] :=
  C1_broadcast_ignores_subscriptions [0, 1] 0 ⟨7, true⟩ "HTTP/1.1 200 OK"
    (fun _ => true) rfl

/-- Claim C4 as stated is false on the code: a failure to serialize the
notification makes the loop call `log.Fatal`, terminating the whole server
process, so neither of the two active connections receives the event. -/
theorem C4_counterexample :
    notifyListener [0, 1] none (Except.error ()) (fun _ => true)
      = FatalOr.fatal := rfl

/-- Claim C4 (amended): delivery to each connection ignores per-connection write
failures — every non-originating connection is written to no matter which
writes fail — but a serialization failure during the broadcast calls
`log.Fatal` and terminates the whole server process. -/
theorem C4_write_failure_independent (conns : List Conn) (except : Option Conn)
    (resp : String) (w1 w2 : Conn → Bool) (c : Conn) (hc : c ∈ conns)
    (hne : some c ≠ except) :
    connsWritten (notifyListener conns except (Except.ok resp) w1)
      = connsWritten (notifyListener conns except (Except.ok resp) w2) ∧
    notifyListener conns except (Except.error ()) w1 = FatalOr.fatal := by
  constructor
  · rw [notifyListener, notifyListener, notifyLoop_ok, notifyLoop_ok,
      connsWritten, connsWritten, List.map_map, List.map_map]
    rfl
  · exact notifyLoop_error_fatal except w1 conns c hc hne

/-- Claim C4 amended-claim witness: with two connections, the deliveries are the
same whether the write to connection 0 fails or succeeds, and serialization
failure terminates the process. -/
theorem C4_write_failure_independent_witness :
    connsWritten (notifyListener [0, 1] none (Except.ok "HTTP/1.1 200 OK")
        (fun c => c ≠ 0))
      = connsWritten (notifyListener [0, 1] none (Except.ok "HTTP/1.1 200 OK")
        (fun _ => true)) ∧
    notifyListener [0, 1] none (Except.error ()) (fun c => c ≠ 0)
      = FatalOr.fatal :=
  C4_write_failure_independent [0, 1] none "HTTP/1.1 200 OK" (fun c => c ≠ 0)
    (fun _ => true) 0 (by decide) (by decide)

/-- Claim C6: every broadcast event notification consists of the bytes produced by
the normal response serialization with the status-line protocol token
replaced by the event-specific token, and the substitution is applied before
the bytes are written to the connection. -/
theorem C6_event_bytes_are_fixed_response (conns : List Conn)
    (except : Option Conn) (resp : String) (writeOk : Conn → Bool)
    (ws : List (Conn × String × Bool))
    (h : notifyListener conns except (Except.ok resp) writeOk = FatalOr.ok ws) :
    ∀ w ∈ ws, w.2.1 = fixProtocolSpecifier resp := by
  rw [notifyListener, notifyLoop_ok] at h
  have hws : ws = (conns.filter (fun c => decide (some c ≠ except))).map
      (fun c => (c, fixProtocolSpecifier resp, writeOk c)) :=
    (FatalOr.ok.injEq _ _).mp h.symm
  intro w hw
  rw [hws] at hw
  obtain ⟨c, _, hcw⟩ := List.mem_map.mp hw
  rw [← hcw]

/-- Claim C6 witness: the one event write to connection 0 carries the serialized
response with `HTTP/1.1` replaced by `EVENT/1.0`. -/
theorem C6_event_bytes_are_fixed_response_witness :
    ((0 : Conn), "EVENT/1.0 200 OK", true).2.1
      = fixProtocolSpecifier "HTTP/1.1 200 OK" :=
  C6_event_bytes_are_fixed_response [0] none "HTTP/1.1 200 OK" (fun _ => true)
    [(0, "EVENT/1.0 200 OK", true)] (by decide)
    (0, "EVENT/1.0 200 OK", true) (by decide)

/-- Claim C3 as stated is false on the code: a storage `Set` error while persisting
a freshly generated identifier makes `transportUUIDInStorage` call
`log.Fatal`, terminating the whole server process rather than failing only
the operation in progress. -/
theorem C3_counterexample :
    transportUUIDInStorage ⟨fun _ => "", fun _ => false, fun _ => true⟩
        "0123456789ab" = FatalOr.fatal := rfl

/-- Claim C3 (amended): a storage `Get` error (or an empty stored value) only makes
the operation regenerate the identifier, but a storage `Set` error while
persisting it terminates the whole server process via `log.Fatal` instead of
merely failing the operation in progress. -/
theorem C3_set_error_terminates (storage : Storage) (rand : String)
    (hget : (storage.data "uuid").length = 0 ∨ storage.getErrs "uuid" = true)
    (hset : storage.setErrs "uuid" = true) :
    transportUUIDInStorage storage rand = FatalOr.fatal := by
  rcases hget with h | h <;>
    simp [transportUUIDInStorage, Storage.get, h, hset]

/-- Claim C3 amended-claim witness: a storage whose reads error and whose writes
error terminates the process. -/
theorem C3_set_error_terminates_witness :
    transportUUIDInStorage ⟨fun _ => "", fun _ => true, fun _ => true⟩ "ff"
      = FatalOr.fatal :=
  C3_set_error_terminates ⟨fun _ => "", fun _ => true, fun _ => true⟩ "ff"
    (Or.inl rfl) rfl

/-- Claim C7: the accessory identifier is generated and persisted at most once:
when storage already holds a non-empty value under the `"uuid"` key the call
returns it unchanged without calling `Set`, and after any successful call a
second call against the resulting storage returns the very same string with
no further write. -/
theorem C7_uuid_generated_once (storage : Storage) (rand rand2 : String)
    (hget : storage.getErrs "uuid" = false)
    (hset : storage.setErrs "uuid" = false) :
    ((storage.data "uuid").length ≠ 0 →
      transportUUIDInStorage storage rand
        = FatalOr.ok (storage.data "uuid", storage, false)) ∧
    (∀ u s2 w, transportUUIDInStorage storage rand = FatalOr.ok (u, s2, w) →
      transportUUIDInStorage s2 rand2 = FatalOr.ok (u, s2, false)) := by
  constructor
  · intro hne
    simp [transportUUIDInStorage, Storage.get, hget, hne]
  · intro u s2 w h
    by_cases hlen : (storage.data "uuid").length = 0
    · simp [transportUUIDInStorage, Storage.get, hget, hlen, hset] at h
      obtain ⟨hu, hs2, hw⟩ := h
      have hdata : s2.data "uuid" = mac48Address rand := by
        rw [← hs2]
        simp [Storage.setOk]
      have hgerr : s2.getErrs "uuid" = false := by
        rw [← hs2]
        exact hget
      have hposu : ¬ u.length = 0 := by
        rw [← hu]
        exact Nat.pos_iff_ne_zero.mp (mac48Address_length_pos rand)
      simp [transportUUIDInStorage, Storage.get, hgerr, hdata, hu, hposu]
    · simp [transportUUIDInStorage, Storage.get, hget, hlen] at h
      obtain ⟨hu, hs2, hw⟩ := h
      rw [← hs2, ← hu]
      simp [transportUUIDInStorage, Storage.get, hget, hlen]

/-- Claim C7 witness: a storage that already holds `"aa:bb"` under the uuid key
returns it unchanged with no write performed. -/
theorem C7_uuid_generated_once_witness :
    transportUUIDInStorage ⟨fun _ => "aa:bb", fun _ => false, fun _ => false⟩
        "0123456789ab"
      = FatalOr.ok ("aa:bb",
          ⟨fun _ => "aa:bb", fun _ => false, fun _ => false⟩, false) :=
  (C7_uuid_generated_once ⟨fun _ => "aa:bb", fun _ => false, fun _ => false⟩
    "0123456789ab" "ffffffffffff" rfl rfl).1 (by decide)

end Hc
